import Mathlib

/-!
Verification of the in-memory tabular store and filter/aggregation engine of
`src/backend/main.py` (a FastAPI + pandas sales dashboard backend).

Shallow embedding conventions:
* A pandas `DataFrame` is a schema (ordered list of column names) together
  with an ordered list of rows.  Rows carry the fixed typed columns of the
  data model (`Date`, `Total`, `Quantity`, and the categorical string
  columns), plus an association list for columns added later via the
  `/data/add-column` endpoint.
* Numeric cells (`Total`, `Quantity`) are modelled as exact rationals; the
  float arithmetic of pandas is modelled by exact arithmetic.
* `Date` cells are modelled as `Option Nat`: `pd.to_datetime(..., errors="coerce")`
  yields either a timestamp or `NaT`; a timestamp for day `y-m-d` is encoded
  as the natural number `y * 10000 + m * 100 + d`, whose numeric order agrees
  with chronological order.  Comparisons against `NaT` (and of `NaT` cells)
  evaluate to false, matching pandas datetime64 comparison semantics.
* `pd.to_numeric(s, errors="coerce")` and the two `pd.to_datetime` call
  shapes used by the code (with the fixed `%d/%m/%Y` format at load time,
  and with the pandas default flexible inference at filter time) are modelled
  by the executable parsers below, covering the literal grammar pandas
  accepts on such inputs (decimal literals; `d/m/Y` strict; ISO `Y-m-d` or
  month-first `m/d/Y` with day-first fallback for the flexible parser,
  within the datetime64 nanosecond year range).
-/

/-- Splits a character list on a separator character (auxiliary). -/
def splitOnCharAux (c : Char) : List Char → List Char → List (List Char)
  | [], acc => [acc.reverse]
  | x :: xs, acc =>
    if x = c then acc.reverse :: splitOnCharAux c xs []
    else splitOnCharAux c xs (x :: acc)

/-- Splits a character list on a separator character. -/
def splitOnChar (c : Char) (cs : List Char) : List (List Char) :=
  splitOnCharAux c cs []

/-- Value of a decimal digit, or `none` for a non-digit character. -/
def digitVal (c : Char) : Option Nat :=
  if c.isDigit then some (c.toNat - '0'.toNat) else none

/-- Parses a nonempty all-digit character list as a natural number. -/
def parseDigits : List Char → Option Nat
  | [] => none
  | cs =>
    cs.foldl (fun acc c =>
      match acc, digitVal c with
      | some n, some d => some (n * 10 + d)
      | _, _ => none) (some 0)

/-- Parses a nonempty all-digit string as a natural number. -/
def parseNat (s : String) : Option Nat := parseDigits s.toList

/-- Gregorian leap-year test. -/
def isLeap (y : Nat) : Bool :=
  (y % 4 = 0 && y % 100 ≠ 0) || y % 400 = 0

/-- Number of days in month `m` of year `y`. -/
def daysInMonth (y m : Nat) : Nat :=
  if m = 2 then (if isLeap y then 29 else 28)
  else if m = 4 ∨ m = 6 ∨ m = 9 ∨ m = 11 then 30
  else 31

/-- Encoding of the calendar day `y-m-d` as a natural number whose numeric
order agrees with chronological order. -/
def encodeDate (y m d : Nat) : Nat := y * 10000 + m * 100 + d

/-- Builds a timestamp from year/month/day components, validating the
calendar and the datetime64[ns] year range (out-of-range datetimes coerce
to `NaT` in pandas). -/
def mkDate (y m d : Nat) : Option Nat :=
  if 1678 ≤ y ∧ y ≤ 2261 ∧ 1 ≤ m ∧ m ≤ 12 ∧ 1 ≤ d ∧ d ≤ daysInMonth y m then
    some (encodeDate y m d)
  else
    none

/-- Model of `pd.to_datetime(s, format="%d/%m/%Y", errors="coerce")`, the
load-time coercion of the `Date` column: strict day/month/year with `/`
separators; anything else coerces to `NaT` (`none`). -/
def parseDateDMY (s : String) : Option Nat :=
  match splitOnChar '/' s.toList with
  | [ds, ms, ys] =>
    match parseDigits ds, parseDigits ms, parseDigits ys with
    | some d, some m, some y => mkDate y m d
    | _, _, _ => none
  | _ => none

/-- Model of `pd.to_datetime(s, errors="coerce")` with no format argument,
as used for the `from_date`/`to_date` filter bounds: pandas infers the
format, accepting ISO `Y-m-d` and slash dates read month-first, with a
day-first fallback when the first component cannot be a month. -/
def parseDateFlex (s : String) : Option Nat :=
  match splitOnChar '-' s.toList with
  | [ys, ms, ds] =>
    match parseDigits ys, parseDigits ms, parseDigits ds with
    | some y, some m, some d => mkDate y m d
    | _, _, _ => none
  | _ =>
    match splitOnChar '/' s.toList with
    | [as, bs, ys] =>
      match parseDigits as, parseDigits bs, parseDigits ys with
      | some a, some b, some y =>
        match mkDate y a b with
        | some t => some t
        | none => mkDate y b a
      | _, _, _ => none
    | _ => none

/-- Parses an unsigned decimal literal (`"12"`, `"3.5"`, `".5"`, `"5."`)
into a numerator/denominator pair of natural numbers. -/
def parseDecimal (cs : List Char) : Option (Nat × Nat) :=
  match splitOnChar '.' cs with
  | [ip] => (parseDigits ip).map (fun n => (n, 1))
  | [ip, fp] =>
    match ip, fp with
    | [], [] => none
    | [], _ => (parseDigits fp).map (fun f => (f, 10 ^ fp.length))
    | _, [] => (parseDigits ip).map (fun n => (n, 1))
    | _, _ =>
      match parseDigits ip, parseDigits fp with
      | some n, some f => some (n * 10 ^ fp.length + f, 10 ^ fp.length)
      | _, _ => none
  | _ => none

/-- Model of `pd.to_numeric(s, errors="coerce")` on a textual cell: an
optional sign followed by a decimal literal; anything else coerces to
`NaN` (`none`). -/
def parseNumeric (s : String) : Option ℚ :=
  match s.toList with
  | '-' :: rest => (parseDecimal rest).map (fun p => Rat.divInt (-(p.1 : Int)) (p.2 : Int))
  | '+' :: rest => (parseDecimal rest).map (fun p => Rat.divInt (p.1 : Int) (p.2 : Int))
  | cs => (parseDecimal cs).map (fun p => Rat.divInt (p.1 : Int) (p.2 : Int))

/-- Coerced numeric value of a raw cell: parse failures contribute `0`,
modelling `pd.to_numeric(..., errors="coerce").fillna(0)`. -/
def coerceNum (s : String) : ℚ := (parseNumeric s).getD 0

/-- Python `int()` applied to a (modelled) float: truncation toward zero. -/
def truncInt (q : ℚ) : Int := q.num.tdiv (q.den : Int)

/-- A raw CSV row, as handed to the startup loader: every cell is text. -/
structure RawRow where
  date : String
  total : String
  quantity : String
  status : String
  deliverStatus : String
  shippingCountry : String
  shippingProvince : String
  rowState : String
  paymentMethod : String
  riskLevel : String
  sku : String
deriving Repr, DecidableEq

/-- A normalized row after load-time coercion (`startup_db_client`):
`Date` is a nullable timestamp, `Total`/`Quantity` are numbers with parse
failures replaced by `0`, the categorical columns are strings, and `extra`
holds the values of columns appended later by `add_column`. -/
structure Row where
  date : Option Nat
  total : ℚ
  quantity : ℚ
  status : String
  deliverStatus : String
  shippingCountry : String
  shippingProvince : String
  rowState : String
  paymentMethod : String
  riskLevel : String
  sku : String
  extra : List (String × String)
deriving Repr, DecidableEq

/-- The in-memory table: ordered schema plus ordered rows
(`app.state.data`). -/
structure DataFrame where
  cols : List String
  rows : List Row
deriving Repr, DecidableEq

/-- Columns of the fixed data-model schema, in CSV order. -/
def baseCols : List String :=
  ["Date", "Total", "Quantity", "Status", "Deliver Status", "Shipping Country",
   "Shipping Province", "State", "Payment Method", "Risk Level", "SKU"]

/-- Load-time coercion of one raw row (lines 32-37 of `main.py`): `Date`
parsed with the fixed `%d/%m/%Y` format, `Total`/`Quantity` numerically
coerced with failures as `0`, everything else kept as text. -/
def loadRow (r : RawRow) : Row :=
  { date := parseDateDMY r.date
    total := coerceNum r.total
    quantity := coerceNum r.quantity
    status := r.status
    deliverStatus := r.deliverStatus
    shippingCountry := r.shippingCountry
    shippingProvince := r.shippingProvince
    rowState := r.rowState
    paymentMethod := r.paymentMethod
    riskLevel := r.riskLevel
    sku := r.sku
    extra := [] }

/-- The startup loader `startup_db_client`: coerces every raw row and
installs the fixed schema.  Row count is preserved: no row is dropped. -/
def load (raws : List RawRow) : DataFrame :=
  { cols := baseCols, rows := raws.map loadRow }

example : (load []).rows = [] := rfl

example : parseDateDMY "05/01/2023" = some 20230105 := by decide
example : parseDateDMY "2023-01-05" = none := by decide
example : parseDateFlex "2023-01-05" = some 20230105 := by decide
example : parseDateFlex "02/03/2023" = some 20230203 := by decide
example : parseDateDMY "02/03/2023" = some 20230302 := by decide
example : parseDateFlex "" = none := by decide
example : parseNumeric "2.5" = some (Rat.divInt 5 2) := by decide
example : parseNumeric "abc" = none := by decide
example : parseNumeric "-3" = some (Rat.divInt (-3) 1) := by decide
example : truncInt (Rat.divInt 5 2) = 2 := by decide
example : truncInt (Rat.divInt (-5) 2) = -2 := by decide
example : Rat.divInt 5 2 = 5 / 2 := by norm_num [Rat.divInt_eq_div]

/-- Normalization of a Python slice endpoint for a sequence of length `n`:
negative indices count from the end (clamped at 0), nonnegative indices are
clamped at `n`. -/
def sliceNorm (n : Nat) (i : Int) : Nat :=
  if i < 0 then ((n : Int) + i).toNat else min i.toNat n

/-- Python slicing `l[a:b]`, as performed by `DataFrame.iloc[a:b]`: slices
never raise, out-of-range endpoints are clamped, negative endpoints count
from the end. -/
def pySlice (l : List Row) (a b : Int) : List Row :=
  (l.take (sliceNorm l.length b)).drop (sliceNorm l.length a)

/-- The `/data` endpoint `get_data` (line 152 of `main.py`):
`data.iloc[skip:skip+limit]`. -/
def get_data (df : DataFrame) (skip limit : Int) : List Row :=
  pySlice df.rows skip (skip + limit)

/-- The optional query parameters shared by `/data/filter` and
`/filtered-stats`.  `none` models an absent parameter. -/
structure FilterCriteria where
  status : Option String
  delivery_status : Option String
  country : Option String
  province : Option String
  state : Option String
  payment_method : Option String
  min_total : Option ℚ
  max_total : Option ℚ
  from_date : Option String
  to_date : Option String
deriving Repr, DecidableEq

/-- The criteria object with every parameter absent. -/
def noFilters : FilterCriteria :=
  ⟨none, none, none, none, none, none, none, none, none, none⟩

/-- One categorical filter stage: `if x and x != "All": df = df[df[col] == x]`.
Python truthiness makes the empty string skip the stage, exactly like an
absent parameter or the `"All"` sentinel. -/
def catFilter (sel : Option String) (proj : Row → String) (rows : List Row) : List Row :=
  match sel with
  | none => rows
  | some s => if s = "" ∨ s = "All" then rows else rows.filter (fun r => proj r = s)

/-- The `min_total` stage: `if min_total is not None: df = df[df["Total"] >= min_total]`. -/
def minTotalFilter (sel : Option ℚ) (rows : List Row) : List Row :=
  match sel with
  | none => rows
  | some m => rows.filter (fun r => m ≤ r.total)

/-- The `max_total` stage: `if max_total is not None: df = df[df["Total"] <= max_total]`. -/
def maxTotalFilter (sel : Option ℚ) (rows : List Row) : List Row :=
  match sel with
  | none => rows
  | some m => rows.filter (fun r => r.total ≤ m)

/-- Comparison of a nullable cell timestamp with a nullable bound: any
comparison involving `NaT` is false (pandas datetime64 semantics). -/
def nullableGE (cell bound : Option Nat) : Bool :=
  match cell, bound with
  | some c, some b => b ≤ c
  | _, _ => false

/-- Symmetric counterpart of `nullableGE` for upper bounds. -/
def nullableLE (cell bound : Option Nat) : Bool :=
  match cell, bound with
  | some c, some b => c ≤ b
  | _, _ => false

/-- The `from_date` stage: `if from_date:` (so the empty string skips the
stage), then `pd.to_datetime(from_date, errors="coerce")` with no format
argument, then `df = df[df["Date"] >= from_date]`. -/
def fromDateFilter (sel : Option String) (rows : List Row) : List Row :=
  match sel with
  | none => rows
  | some s =>
    if s = "" then rows
    else rows.filter (fun r => nullableGE r.date (parseDateFlex s))

/-- The `to_date` stage, mirroring `fromDateFilter` with `<=`. -/
def toDateFilter (sel : Option String) (rows : List Row) : List Row :=
  match sel with
  | none => rows
  | some s =>
    if s = "" then rows
    else rows.filter (fun r => nullableLE r.date (parseDateFlex s))

/-- The shared filter pipeline of `filter_data` and `get_filtered_stats`
(lines 264-289 and 320-345 of `main.py`), applying the stages in source
order to a copy of the stored rows. -/
def filterRows (rows : List Row) (c : FilterCriteria) : List Row :=
  toDateFilter c.to_date
    (fromDateFilter c.from_date
      (maxTotalFilter c.max_total
        (minTotalFilter c.min_total
          (catFilter c.payment_method (fun r => r.paymentMethod)
            (catFilter c.state (fun r => r.rowState)
              (catFilter c.province (fun r => r.shippingProvince)
                (catFilter c.country (fun r => r.shippingCountry)
                  (catFilter c.delivery_status (fun r => r.deliverStatus)
                    (catFilter c.status (fun r => r.status) rows)))))))))

/-- The `/data/filter` endpoint `filter_data`: the filtered page
`filtered_data.iloc[skip:skip+limit]` (the endpoint returns only the page). -/
def filter_data (df : DataFrame) (c : FilterCriteria) (skip limit : Int) : List Row :=
  pySlice (filterRows df.rows c) skip (skip + limit)

/-- Sum of the (coerced) `Total` column of a sequence of rows. -/
def sumTotals (rows : List Row) : ℚ := (rows.map (fun r => r.total)).sum

/-- Sum of the (coerced) `Quantity` column of a sequence of rows. -/
def sumQuantities (rows : List Row) : ℚ := (rows.map (fun r => r.quantity)).sum

/-- Distinct elements of a list in order of first occurrence (auxiliary:
`seen` accumulates the values already emitted). -/
def firstSeenAux (seen : List String) : List String → List String
  | [] => []
  | x :: xs =>
    if x ∈ seen then firstSeenAux seen xs
    else x :: firstSeenAux (x :: seen) xs

/-- Distinct elements of a list in order of first occurrence, modelling
pandas hash-table key extraction (`unique`, `value_counts` keys, `groupby`
group keys before sorting). -/
def firstSeen (l : List String) : List String := firstSeenAux [] l

/-- Lexicographic character-list comparison (code-point order), matching
Python string comparison as used by `sort_values` on string labels. -/
def charsLe : List Char → List Char → Bool
  | [], _ => true
  | _ :: _, [] => false
  | a :: as, b :: bs => if a < b then true else if b < a then false else charsLe as bs

/-- Lexicographic string comparison in code-point order. -/
def strLe (a b : String) : Bool := charsLe a.toList b.toList

/-- Comparator for `value_counts` output: descending by count, with ties
broken by the position of the first occurrence of the key in the original column
(pandas `value_counts` groups keys in first-seen order and sorts by count
with a stable sort, which is exactly a sort by this comparator). -/
def vcLe (vals : List String) (a b : String × Nat) : Bool :=
  decide (b.2 < a.2) || (decide (a.2 = b.2) && decide (vals.indexOf a.1 ≤ vals.indexOf b.1))

/-- Model of `Series.value_counts().to_dict()` on a string column: pairs
`(value, count)` for each distinct value, descending by count, ties in
first-seen order. -/
def value_counts (vals : List String) : List (String × Nat) :=
  List.insertionSort (fun a b => vcLe vals a b = true)
    ((firstSeen vals).map (fun k => (k, vals.count k)))

example : value_counts ["b", "a", "a", "c", "b"] = [("b", 2), ("a", 2), ("c", 1)] := by decide
example : firstSeen ["x", "y", "x"] = ["x", "y"] := by decide
example : get_data (load []) 0 100 = [] := by decide

/-- Zero-pads a number below 100 to two digits (`strftime` month field). -/
def pad2 (n : Nat) : String := if n < 10 then "0" ++ toString n else toString n

/-- The `YYYY-MM` label `strftime("%Y-%m")` derives from an encoded
timestamp (years are always four digits within the datetime64 range). -/
def monthLabel (t : Nat) : String := toString (t / 10000) ++ "-" ++ pad2 (t / 100 % 100)

/-- Month label of a row, `none` when the `Date` of the row is null (`NaT` rows
get a `NaN` label, which `groupby` drops). -/
def monthKey (r : Row) : Option String := r.date.map monthLabel

/-- The rows belonging to one month group. -/
def monthGroup (rows : List Row) (k : String) : List Row :=
  rows.filter (fun r => monthKey r = some k)

/-- The distinct month labels of the non-null rows, sorted ascending
(`groupby("Month")` then `sort_values("Month")` on the string labels). -/
def monthKeys (rows : List Row) : List String :=
  List.insertionSort (fun a b => strLe a b = true) (firstSeen (rows.filterMap monthKey))

/-- Monthly sales: for each month, the sum of `Total` over its rows. -/
def monthlySales (rows : List Row) : List (String × ℚ) :=
  (monthKeys rows).map (fun k => (k, sumTotals (monthGroup rows k)))

/-- Monthly order counts: for each month, the number of its rows. -/
def monthlyOrders (rows : List Row) : List (String × Nat) :=
  (monthKeys rows).map (fun k => (k, (monthGroup rows k).length))

/-- Rounding half-to-even at two decimal places (`Series.round(2)`,
which follows IEEE round-half-even). -/
def roundHalfEven (x : ℚ) : Int :=
  let f : Int := Int.floor x
  let r : ℚ := x - (f : ℚ)
  if r < 1/2 then f
  else if 1/2 < r then f + 1
  else if f % 2 = 0 then f else f + 1

/-- Rounds a rational to two decimal places, half to even. -/
def roundq2 (q : ℚ) : ℚ := (roundHalfEven (q * 100) : ℚ) / 100

/-- Monthly average order values: for each month, the mean `Total` rounded
to two decimals, together with the order count. -/
def monthlyAvg (rows : List Row) : List (String × ℚ × Nat) :=
  (monthKeys rows).map (fun k =>
    let g := monthGroup rows k
    (k, roundq2 (sumTotals g / (g.length : ℚ)), g.length))

/-- The ten most frequent SKUs with counts
(`data["SKU"].value_counts().head(10)`). -/
def topSkus (rows : List Row) : List (String × Nat) :=
  (value_counts (rows.map (fun r => r.sku))).take 10

/-- The KPI-and-series bundle produced by the `/stats` endpoint
(restricted to the fields the verified properties concern). -/
structure Stats where
  total_records : Nat
  total_sales : ℚ
  total_quantity : Int
  avg_order_value : ℚ
  monthly_sales : List (String × ℚ)
  monthly_orders : List (String × Nat)
  monthly_avg_values : List (String × ℚ × Nat)
  top_skus : List (String × Nat)
deriving Repr, DecidableEq

/-- The `/stats` endpoint `get_stats` (lines 156-241 of `main.py`): scalar
KPIs over all rows (guarded by column presence, with `int()` applied to the
quantity sum and `float()` to the sales sum), and monthly series grouped by
the `YYYY-MM` label with null dates dropped by `groupby`. -/
def get_stats (df : DataFrame) : Stats :=
  let n := df.rows.length
  let ts := if "Total" ∈ df.cols then sumTotals df.rows else 0
  let tq := if "Quantity" ∈ df.cols then sumQuantities df.rows else 0
  { total_records := n
    total_sales := ts
    total_quantity := truncInt tq
    avg_order_value := if 0 < n then ts / (n : ℚ) else 0
    monthly_sales := if "Date" ∈ df.cols then monthlySales df.rows else []
    monthly_orders := if "Date" ∈ df.cols then monthlyOrders df.rows else []
    monthly_avg_values := if "Date" ∈ df.cols then monthlyAvg df.rows else []
    top_skus := if "SKU" ∈ df.cols then topSkus df.rows else [] }

/-- Per-state totals `groupby("State")["Total"].sum().to_dict()` (group
keys ascending, pandas `groupby` default `sort=True`). -/
def stateBreakdown (rows : List Row) : List (String × ℚ) :=
  (List.insertionSort (fun a b => strLe a b = true)
      (firstSeen (rows.map (fun r => r.rowState)))).map
    (fun k => (k, sumTotals (rows.filter (fun r => r.rowState = k))))

/-- The reduced bundle produced by the `/filtered-stats` endpoint. -/
structure FilteredStats where
  total_count : Nat
  total_sales : ℚ
  avg_order_value : ℚ
  total_quantity : Int
  state_breakdown : List (String × ℚ)
  status_breakdown : List (String × Nat)
deriving Repr, DecidableEq

/-- The `/filtered-stats` endpoint `get_filtered_stats` (lines 304-359 of
`main.py`): applies the filter pipeline to a copy of the data, then
computes the reduced stats bundle (`avg_order_value` is the mean of
`Total`, i.e. sum over count, guarded on a nonempty result). -/
def get_filtered_stats (df : DataFrame) (c : FilterCriteria) : FilteredStats :=
  let f := filterRows df.rows c
  { total_count := f.length
    total_sales := sumTotals f
    avg_order_value := if 0 < f.length then sumTotals f / (f.length : ℚ) else 0
    total_quantity := truncInt (sumQuantities f)
    state_breakdown := stateBreakdown f
    status_breakdown := value_counts (f.map (fun r => r.status)) }

/-- The `/columns` endpoint: the current schema. -/
def get_columns (df : DataFrame) : List String := df.cols

/-- The fixed list of filterable categorical columns used by
`/filter-options`. -/
def optionCols : List String :=
  ["Status", "Deliver Status", "Shipping Country", "Shipping Province",
   "Payment Method", "Risk Level", "State"]

/-- Projection of a row to one of the fixed categorical columns. -/
def catProj (col : String) (r : Row) : String :=
  if col = "Status" then r.status
  else if col = "Deliver Status" then r.deliverStatus
  else if col = "Shipping Country" then r.shippingCountry
  else if col = "Shipping Province" then r.shippingProvince
  else if col = "Payment Method" then r.paymentMethod
  else if col = "Risk Level" then r.riskLevel
  else if col = "State" then r.rowState
  else ""

/-- The `/filter-options` endpoint: for each categorical column present in
the schema, `"All"` followed by the distinct non-empty values in
first-seen order. -/
def get_filter_options (df : DataFrame) : List (String × List String) :=
  (optionCols.filter (fun col => col ∈ df.cols)).map
    (fun col => (col, "All" :: firstSeen ((df.rows.map (catProj col)).filter (fun v => v ≠ ""))))

/-- Failure raised by `/data/add-column` on a duplicate name
(`HTTPException(400, "Column ... already exists")`). -/
inductive AddColumnError where
  | duplicate (name : String)
deriving Repr, DecidableEq

/-- The `/data/add-column` endpoint `add_column` (lines 386-400 of
`main.py`): rejects a name already in the schema; otherwise appends the
column and sets it to `default_value` in every existing row. -/
def add_column (df : DataFrame) (name default_value : String) : Except AddColumnError DataFrame :=
  if name ∈ df.cols then .error (.duplicate name)
  else .ok { cols := df.cols ++ [name]
             rows := df.rows.map (fun r => { r with extra := r.extra ++ [(name, default_value)] }) }

/-- Value of an added column in a row (association-list lookup). -/
def lookupExtra (r : Row) (name : String) : Option String :=
  (r.extra.find? (fun p => p.1 == name)).map (fun p => p.2)

/-- The process-wide mutable singleton `app.state.data`. -/
structure ServerState where
  data : DataFrame
deriving Repr, DecidableEq

/-- The `/data` handler as a state transformer: reads never assign to
`app.state`, so the state component is returned unchanged. -/
def serverGetData (s : ServerState) (skip limit : Int) : ServerState × List Row :=
  (s, get_data s.data skip limit)

/-- The `/stats` handler as a state transformer. -/
def serverGetStats (s : ServerState) : ServerState × Stats :=
  (s, get_stats s.data)

/-- The `/data/filter` handler as a state transformer: it filters
`app.state.data.copy()`, leaving the stored frame untouched. -/
def serverFilterData (s : ServerState) (c : FilterCriteria) (skip limit : Int) :
    ServerState × List Row :=
  (s, filter_data s.data c skip limit)

/-- The `/filtered-stats` handler as a state transformer (also operates on
a copy). -/
def serverGetFilteredStats (s : ServerState) (c : FilterCriteria) :
    ServerState × FilteredStats :=
  (s, get_filtered_stats s.data c)

/-- The `/columns` handler as a state transformer. -/
def serverGetColumns (s : ServerState) : ServerState × List String :=
  (s, get_columns s.data)

/-- The `/filter-options` handler as a state transformer. -/
def serverGetFilterOptions (s : ServerState) : ServerState × List (String × List String) :=
  (s, get_filter_options s.data)

/-- The `/data/add-column` handler as a state transformer: the only
handler that assigns into `app.state.data`; on a duplicate name it raises
before mutating anything. -/
def serverAddColumn (s : ServerState) (name default_value : String) :
    ServerState × Except AddColumnError Unit :=
  match add_column s.data name default_value with
  | .ok d => (⟨d⟩, .ok ())
  | .error e => (s, .error e)

/-- Sample raw row: a January 2023 transaction. -/
def raw1 : RawRow :=
  ⟨"05/01/2023", "10", "1", "Paid", "Delivered", "US", "CA", "California", "Card", "Low", "SKU1"⟩

/-- Sample raw row: a second January 2023 transaction. -/
def raw2 : RawRow :=
  ⟨"06/01/2023", "20", "2", "Pending", "Shipped", "US", "NY", "NewYork", "Cash", "Low", "SKU2"⟩

/-- Sample raw row: a February 2023 transaction. -/
def raw3 : RawRow :=
  ⟨"07/02/2023", "30", "3", "Paid", "Delivered", "US", "CA", "California", "Card", "High", "SKU1"⟩

/-- Sample raw row with a fractional `Quantity` cell. -/
def rawFrac : RawRow :=
  ⟨"05/01/2023", "10", "2.5", "Paid", "Delivered", "US", "CA", "California", "Card", "Low", "SKU1"⟩

/-- Sample raw row whose `Status` cell is the empty string and whose
`Date` cell is unparsable under `%d/%m/%Y`. -/
def rawEmptyStatus : RawRow :=
  ⟨"2023-01-05", "40", "4", "", "Shipped", "US", "CA", "California", "Cash", "Low", "SKU3"⟩

/-- Three-row sample dataset. -/
def sample3 : DataFrame := load [raw1, raw2, raw3]

/-- One-row sample dataset. -/
def sample1 : DataFrame := load [raw1]

/-- One-row sample dataset with a fractional quantity. -/
def sampleFrac : DataFrame := load [rawFrac]

/-- Two-row sample dataset containing an empty-string `Status` value. -/
def sampleStatus : DataFrame := load [rawEmptyStatus, raw1]

example : (get_filtered_stats sample1 { noFilters with from_date := some "" }).total_count = 1 := by
  decide
example : (get_filtered_stats sample1 { noFilters with from_date := some "junk" }).total_count = 0 := by
  decide
example : filter_data sample1 { noFilters with to_date := some "junk" } 0 100 = [] := by
  decide
example : (get_data sample3 0 (-1)).length = 2 := by decide
example : get_data sample3 1 2 = sample3.rows.drop 1 := by decide
example : (get_filtered_stats sample1 { noFilters with from_date := some "05/01/2023" }).total_count = 0 := by
  decide
example : (get_stats sample3).monthly_orders = [("2023-01", 2), ("2023-02", 1)] := by decide
example : (get_stats (load [raw1, rawEmptyStatus])).monthly_orders = [("2023-01", 1)] := by decide
example : (get_stats sample3).top_skus = [("SKU1", 2), ("SKU2", 1)] := by decide
example : (get_stats sample3).total_records = 3 := by decide
example : (get_filter_options sampleStatus).map (fun p => p.1) = optionCols := by decide
example : (add_column sample1 "Total" "x") = .error (.duplicate "Total") := by rfl

theorem mem_firstSeenAux {x : String} :
    ∀ (l : List String) (seen : List String),
      x ∈ firstSeenAux seen l ↔ x ∈ l ∧ x ∉ seen := by
  intro l
  induction l with
  | nil => intro seen; simp [firstSeenAux]
  | cons y ys ih =>
    intro seen
    by_cases hy : y ∈ seen
    · simp only [firstSeenAux, if_pos hy, ih]
      constructor
      · rintro ⟨hxl, hxs⟩
        exact ⟨List.mem_cons_of_mem _ hxl, hxs⟩
      · rintro ⟨hxl, hxs⟩
        rcases List.mem_cons.mp hxl with h | h
        · subst h; exact absurd hy hxs
        · exact ⟨h, hxs⟩
    · simp only [firstSeenAux, if_neg hy]
      rw [List.mem_cons, List.mem_cons, ih]
      constructor
      · rintro (h | ⟨hxl, hxs⟩)
        · subst h; exact ⟨Or.inl rfl, hy⟩
        · exact ⟨Or.inr hxl, fun hs => hxs (List.mem_cons_of_mem _ hs)⟩
      · rintro ⟨h | h, hxs⟩
        · exact Or.inl h
        · by_cases hxy : x = y
          · exact Or.inl hxy
          · refine Or.inr ⟨h, fun hs => ?_⟩
            rcases List.mem_cons.mp hs with h' | h'
            · exact hxy h'
            · exact hxs h'

theorem nodup_firstSeenAux :
    ∀ (l : List String) (seen : List String), (firstSeenAux seen l).Nodup := by
  intro l
  induction l with
  | nil => intro seen; simp [firstSeenAux]
  | cons y ys ih =>
    intro seen
    by_cases hy : y ∈ seen
    · simpa [firstSeenAux, if_pos hy] using ih seen
    · simp only [firstSeenAux, if_neg hy]
      refine List.nodup_cons.mpr ⟨?_, ih (y :: seen)⟩
      intro hmem
      exact ((mem_firstSeenAux ys (y :: seen)).mp hmem).2 (List.mem_cons_self y seen)

theorem mem_firstSeen {x : String} {l : List String} : x ∈ firstSeen l ↔ x ∈ l := by
  simp [firstSeen, mem_firstSeenAux]

theorem nodup_firstSeen (l : List String) : (firstSeen l).Nodup :=
  nodup_firstSeenAux l []

theorem charsLe_total : ∀ a b : List Char, charsLe a b = true ∨ charsLe b a = true := by
  intro a
  induction a with
  | nil => intro b; left; rfl
  | cons x xs ih =>
    intro b
    cases b with
    | nil => right; rfl
    | cons y ys =>
      rcases lt_trichotomy x y with h | h | h
      · left; simp [charsLe, h]
      · subst h
        rcases ih ys with h' | h'
        · left; simp [charsLe, lt_irrefl, h']
        · right; simp [charsLe, lt_irrefl, h']
      · right; simp [charsLe, h]

theorem charsLe_trans :
    ∀ a b c : List Char, charsLe a b = true → charsLe b c = true → charsLe a c = true := by
  intro a
  induction a with
  | nil => intro b c _ _; rfl
  | cons x xs ih =>
    intro b c hab hbc
    cases b with
    | nil => simp [charsLe] at hab
    | cons y ys =>
      cases c with
      | nil => simp [charsLe] at hbc
      | cons z zs =>
        simp only [charsLe] at hab hbc ⊢
        by_cases hxy : x < y
        · by_cases hyz : y < z
          · simp [lt_trans hxy hyz]
          · by_cases hzy : z < y
            · simp [charsLe, hyz, hzy] at hbc
            · have : y = z := le_antisymm (not_lt.mp hzy) (not_lt.mp hyz)
              subst this
              simp [hxy]
        · by_cases hyx : y < x
          · simp [charsLe, hxy, hyx] at hab
          · have hxy' : x = y := le_antisymm (not_lt.mp hyx) (not_lt.mp hxy)
            subst hxy'
            by_cases hxz : x < z
            · simp [hxz]
            · by_cases hzx : z < x
              · simp [charsLe, hxz, hzx] at hbc
              · simp only [if_neg hxz, if_neg hzx]
                simp only [if_neg (lt_irrefl x)] at hab
                simp only [if_neg hxz, if_neg hzx] at hbc
                exact ih _ _ hab hbc

theorem strLe_total : ∀ a b : String, strLe a b = true ∨ strLe b a = true := by
  intro a b; exact charsLe_total a.toList b.toList

theorem strLe_trans :
    ∀ a b c : String, strLe a b = true → strLe b c = true → strLe a c = true := by
  intro a b c; exact charsLe_trans a.toList b.toList c.toList

theorem vcLe_total (vals : List String) :
    ∀ a b : String × Nat, vcLe vals a b = true ∨ vcLe vals b a = true := by
  intro a b
  simp only [vcLe, Bool.or_eq_true, Bool.and_eq_true, decide_eq_true_eq]
  omega

theorem vcLe_trans (vals : List String) :
    ∀ a b c : String × Nat,
      vcLe vals a b = true → vcLe vals b c = true → vcLe vals a c = true := by
  intro a b c
  simp only [vcLe, Bool.or_eq_true, Bool.and_eq_true, decide_eq_true_eq]
  omega

theorem sum_map_ite_of_not_mem {M : Type} [AddCommMonoid M] (c : M) (k0 : String) :
    ∀ ks : List String, k0 ∉ ks →
      (ks.map (fun k => if k0 = k then c else 0)).sum = 0 := by
  intro ks
  induction ks with
  | nil => intro _; simp
  | cons k ks ih =>
    intro hk
    have h1 : k0 ≠ k := fun h => hk (h ▸ List.mem_cons_self k ks)
    have h2 : k0 ∉ ks := fun h => hk (List.mem_cons_of_mem _ h)
    simp [if_neg h1, ih h2]

theorem sum_map_ite_of_mem {M : Type} [AddCommMonoid M] (c : M) (k0 : String) :
    ∀ ks : List String, ks.Nodup → k0 ∈ ks →
      (ks.map (fun k => if k0 = k then c else 0)).sum = c := by
  intro ks
  induction ks with
  | nil => intro _ h; exact absurd h (List.not_mem_nil k0)
  | cons k ks ih =>
    intro hnd hk
    have hk' : k ∉ ks := (List.nodup_cons.mp hnd).1
    rcases List.mem_cons.mp hk with h | h
    · subst h
      simp [sum_map_ite_of_not_mem c k0 ks hk']
    · have h1 : k0 ≠ k := fun he => hk' (he ▸ h)
      simp [if_neg h1, ih (List.nodup_cons.mp hnd).2 h]

theorem sum_groups {α M : Type} [AddCommMonoid M] (key : α → Option String) (w : α → M)
    (ks : List String) (hnd : ks.Nodup) :
    ∀ rows : List α,
      (∀ r ∈ rows, ∀ k, key r = some k → k ∈ ks) →
      (ks.map (fun k => ((rows.filter (fun r => key r = some k)).map w).sum)).sum
        = ((rows.filter (fun r => (key r).isSome)).map w).sum := by
  intro rows
  induction rows with
  | nil => intro _; simp
  | cons r rows ih =>
    intro hcov
    have hcov' : ∀ x ∈ rows, ∀ k, key x = some k → k ∈ ks := fun x hx =>
      hcov x (List.mem_cons_of_mem _ hx)
    have step : ∀ k : String,
        (((r :: rows).filter (fun x => key x = some k)).map w).sum
          = (if key r = some k then w r else 0)
            + ((rows.filter (fun x => key x = some k)).map w).sum := by
      intro k
      by_cases h : key r = some k
      · simp [List.filter_cons, h]
      · simp [List.filter_cons, h]
    calc
      (ks.map (fun k => (((r :: rows).filter (fun x => key x = some k)).map w).sum)).sum
          = (ks.map (fun k => (if key r = some k then w r else 0)
              + ((rows.filter (fun x => key x = some k)).map w).sum)).sum := by
            exact congrArg List.sum (List.map_congr_left (fun k _ => step k))
      _ = (ks.map (fun k => if key r = some k then w r else 0)).sum
            + (ks.map (fun k => ((rows.filter (fun x => key x = some k)).map w).sum)).sum :=
            List.sum_map_add
      _ = (((r :: rows).filter (fun x => (key x).isSome)).map w).sum := by
            rcases hk : key r with _ | k0
            · have h0 : (ks.map (fun k => if (none : Option String) = some k then w r else 0)).sum
                  = (0 : M) := by simp
              rw [h0, zero_add, ih hcov']
              simp [List.filter_cons, hk]
            · have hmem : k0 ∈ ks := hcov r (List.mem_cons_self r rows) k0 hk
              simp only [Option.some.injEq]
              rw [sum_map_ite_of_mem (w r) k0 ks hnd hmem, ih hcov']
              simp [List.filter_cons, hk]

theorem take_min_length {α : Type} (l : List α) (m : Nat) :
    l.take (min m l.length) = l.take m := by
  rcases le_total m l.length with h | h
  · rw [min_eq_left h]
  · rw [min_eq_right h, List.take_length, List.take_of_length_le h]

theorem drop_min_length {α : Type} (l : List α) (m : Nat) :
    l.drop (min m l.length) = l.drop m := by
  rcases le_total m l.length with h | h
  · rw [min_eq_left h]
  · rw [min_eq_right h, List.drop_length, List.drop_of_length_le h]

theorem drop_min_of_le {α : Type} (t : List α) (n m : Nat) (h : t.length ≤ n) :
    t.drop (min m n) = t.drop m := by
  rcases le_total m n with hmn | hmn
  · rw [min_eq_left hmn]
  · rw [min_eq_right hmn, List.drop_of_length_le h,
      List.drop_of_length_le (le_trans h hmn)]

theorem nullableGE_none (c : Option Nat) : nullableGE c none = false := by
  cases c <;> rfl

theorem nullableLE_none (c : Option Nat) : nullableLE c none = false := by
  cases c <;> rfl

theorem fromDateFilter_unparsable (s : String) (hs : s ≠ "") (hp : parseDateFlex s = none)
    (rows : List Row) : fromDateFilter (some s) rows = [] := by
  simp [fromDateFilter, if_neg hs, hp, nullableGE_none]

theorem toDateFilter_unparsable (s : String) (hs : s ≠ "") (hp : parseDateFlex s = none)
    (rows : List Row) : toDateFilter (some s) rows = [] := by
  simp [toDateFilter, if_neg hs, hp, nullableLE_none]

theorem toDateFilter_nil (sel : Option String) : toDateFilter sel [] = [] := by
  cases sel with
  | none => rfl
  | some s => simp [toDateFilter]

theorem catFilter_absent (o : Option String) (proj : Row → String) (rows : List Row)
    (h : o = none ∨ o = some "All") : catFilter o proj rows = rows := by
  rcases h with h | h <;> subst h <;> simp [catFilter]

/-- CLAIM C6 (counterexample): on a three-row dataset, `page(0, -1)` returns
the first two rows rather than the empty sequence the claim promises for
`limit ≤ 0`: `iloc` follows Python slice semantics, where the endpoint `-1`
counts from the end. -/
theorem page_nonpositive_limit_not_empty :
    get_data sample3 0 (-1) ≠ [] ∧ (get_data sample3 0 (-1)).length = 2 := by
  constructor
  · decide
  · decide

/-- CLAIM C6 (amended): for nonnegative `skip` and `limit`, `page(skip, limit)`
returns exactly the window `[skip, skip+limit)` of the stored order (so a
`skip` beyond the length yields an empty page and no input errors); negative
arguments instead follow Python slice semantics, counting from the end. -/
theorem page_python_slice_nonneg (df : DataFrame) (skip limit : Int)
    (h1 : 0 ≤ skip) (h2 : 0 ≤ limit) :
    get_data df skip limit = (df.rows.drop skip.toNat).take limit.toNat ∧
      (df.rows.length ≤ skip.toNat → get_data df skip limit = []) := by
  have hs : ¬ skip < 0 := not_lt.mpr h1
  have hsl : ¬ skip + limit < 0 := not_lt.mpr (add_nonneg h1 h2)
  have hwin : get_data df skip limit = (df.rows.drop skip.toNat).take limit.toNat := by
    simp only [get_data, pySlice, sliceNorm, if_neg hs, if_neg hsl]
    rw [take_min_length]
    rw [drop_min_of_le _ df.rows.length skip.toNat
      (by rw [List.length_take]; exact min_le_right _ _)]
    rw [Int.toNat_add h1 h2, ← List.take_drop]
  refine ⟨hwin, fun hle => ?_⟩
  rw [hwin, List.drop_of_length_le hle, List.take_nil]

/-- CLAIM C6 (witness): the amended statement evaluated on the three-row
sample at `skip = 1, limit = 2` and at the out-of-range `skip = 5`. -/
theorem page_python_slice_nonneg_witness :
    get_data sample3 1 2 = (sample3.rows.drop (Int.toNat 1)).take (Int.toNat 2) ∧
      get_data sample3 5 1 = [] :=
  ⟨(page_python_slice_nonneg sample3 1 2 (by decide) (by decide)).1,
   (page_python_slice_nonneg sample3 5 1 (by decide) (by decide)).2 (by decide)⟩

/-- CLAIM C7: with every categorical criterion absent or `"All"` and every
numeric and date bound absent, the filter pipeline returns the stored rows
unchanged (same rows, same order), and the filtered page equals the
unfiltered page for every `skip` and `limit`. -/
theorem no_filters_identity (df : DataFrame) (c : FilterCriteria)
    (h1 : c.status = none ∨ c.status = some "All")
    (h2 : c.delivery_status = none ∨ c.delivery_status = some "All")
    (h3 : c.country = none ∨ c.country = some "All")
    (h4 : c.province = none ∨ c.province = some "All")
    (h5 : c.state = none ∨ c.state = some "All")
    (h6 : c.payment_method = none ∨ c.payment_method = some "All")
    (h7 : c.min_total = none) (h8 : c.max_total = none)
    (h9 : c.from_date = none) (h10 : c.to_date = none) :
    filterRows df.rows c = df.rows ∧
      ∀ skip limit : Int, filter_data df c skip limit = get_data df skip limit := by
  have hid : filterRows df.rows c = df.rows := by
    simp only [filterRows, h7, h8, h9, h10, minTotalFilter, maxTotalFilter,
      fromDateFilter, toDateFilter]
    rw [catFilter_absent c.status _ _ h1, catFilter_absent c.delivery_status _ _ h2,
      catFilter_absent c.country _ _ h3, catFilter_absent c.province _ _ h4,
      catFilter_absent c.state _ _ h5, catFilter_absent c.payment_method _ _ h6]
  exact ⟨hid, fun skip limit => by simp [filter_data, get_data, hid]⟩

/-- CLAIM C7 (witness): the identity evaluated on the three-row sample with
all criteria absent, at `skip = 0`, `limit = 100`. -/
theorem no_filters_identity_witness :
    filterRows sample3.rows noFilters = sample3.rows ∧
      filter_data sample3 noFilters 0 100 = get_data sample3 0 100 :=
  ⟨(no_filters_identity sample3 noFilters (Or.inl rfl) (Or.inl rfl) (Or.inl rfl) (Or.inl rfl)
      (Or.inl rfl) (Or.inl rfl) rfl rfl rfl rfl).1,
   (no_filters_identity sample3 noFilters (Or.inl rfl) (Or.inl rfl) (Or.inl rfl) (Or.inl rfl)
      (Or.inl rfl) (Or.inl rfl) rfl rfl rfl rfl).2 0 100⟩

/-- CLAIM C2 (counterexample): the empty string is a string that fails date
parsing, yet supplying it as `from_date` does not empty the result: Python
truthiness (`if from_date:`) skips the date filter entirely, so the one-row
sample keeps `total_count = 1`. -/
theorem empty_string_date_bound_not_empty_result :
    parseDateFlex "" = none ∧
      (get_filtered_stats sample1 { noFilters with from_date := some "" }).total_count = 1 ∧
      filter_data sample1 { noFilters with from_date := some "" } 0 100 ≠ [] := by
  refine ⟨by decide, by decide, by decide⟩

/-- CLAIM C2 (amended): a NON-EMPTY `from_date` or `to_date` string that
fails date parsing becomes an unorderable null, every row-to-null
comparison is false, and so the filtered result is empty: `total_count = 0`
and every filtered page is empty.  (The empty string is instead treated
like an absent bound.) -/
theorem filtered_empty_of_unparsable_date_bound (df : DataFrame) (c : FilterCriteria)
    (s : String) (hs : s ≠ "") (hp : parseDateFlex s = none)
    (hc : c.from_date = some s ∨ c.to_date = some s) :
    (get_filtered_stats df c).total_count = 0 ∧
      ∀ skip limit : Int, filter_data df c skip limit = [] := by
  have key : filterRows df.rows c = [] := by
    rcases hc with h | h
    · simp only [filterRows, h]
      rw [fromDateFilter_unparsable s hs hp, toDateFilter_nil]
    · simp only [filterRows, h]
      rw [toDateFilter_unparsable s hs hp]
  constructor
  · simp [get_filtered_stats, key]
  · intro skip limit
    simp [filter_data, key, pySlice]

/-- CLAIM C2 (witness): the amended statement evaluated on the one-row
sample with the unparsable bound `"never-a-date"`. -/
theorem filtered_empty_of_unparsable_date_bound_witness :
    (get_filtered_stats sample1 { noFilters with from_date := some "never-a-date" }).total_count
        = 0 ∧
      filter_data sample1 { noFilters with from_date := some "never-a-date" } 0 100 = [] :=
  ⟨(filtered_empty_of_unparsable_date_bound sample1
      { noFilters with from_date := some "never-a-date" } "never-a-date"
      (by decide) (by decide) (Or.inl rfl)).1,
   (filtered_empty_of_unparsable_date_bound sample1
      { noFilters with from_date := some "never-a-date" } "never-a-date"
      (by decide) (by decide) (Or.inl rfl)).2 0 100⟩

/-- Criteria in which only the `status` parameter may be supplied. -/
def statusOnly (s : Option String) : FilterCriteria :=
  ⟨s, none, none, none, none, none, none, none, none, none⟩

theorem filterRows_statusOnly (rows : List Row) (s : Option String) :
    filterRows rows (statusOnly s) = catFilter s (fun r => r.status) rows := by
  simp [filterRows, statusOnly, minTotalFilter, maxTotalFilter, fromDateFilter,
    toDateFilter, catFilter]

/-- CLAIM C9: supplying the empty string for a categorical filter field is
treated exactly like an absent filter (Python truthiness skips the stage,
just as for the `"All"` sentinel); consequently, on any dataset containing
both an empty and a non-empty `Status`, no `status` criteria value selects
precisely the rows whose `Status` is the empty string. -/
theorem empty_string_filter_like_absent (df : DataFrame) (c : FilterCriteria) :
    (filterRows df.rows { c with status := some "" }
        = filterRows df.rows { c with status := none } ∧
      filterRows df.rows { c with delivery_status := some "" }
        = filterRows df.rows { c with delivery_status := none } ∧
      filterRows df.rows { c with country := some "" }
        = filterRows df.rows { c with country := none } ∧
      filterRows df.rows { c with province := some "" }
        = filterRows df.rows { c with province := none } ∧
      filterRows df.rows { c with state := some "" }
        = filterRows df.rows { c with state := none } ∧
      filterRows df.rows { c with payment_method := some "" }
        = filterRows df.rows { c with payment_method := none }) ∧
    ((∃ r ∈ df.rows, r.status = "") → (∃ r ∈ df.rows, r.status ≠ "") →
      ∀ s : Option String,
        filterRows df.rows (statusOnly s) ≠ df.rows.filter (fun r => r.status = "")) := by
  constructor
  · refine ⟨?_, ?_, ?_, ?_, ?_, ?_⟩ <;> simp [filterRows, catFilter]
  · rintro ⟨r0, hr0, h0⟩ ⟨r1, hr1, h1⟩ s
    rw [filterRows_statusOnly]
    have hpass : ∀ (hid : catFilter s (fun r => r.status) df.rows = df.rows),
        catFilter s (fun r => r.status) df.rows ≠ df.rows.filter (fun r => r.status = "") := by
      intro hid heq
      rw [hid] at heq
      have : r1 ∈ df.rows.filter (fun r => r.status = "") := heq ▸ hr1
      rw [List.mem_filter] at this
      exact h1 (by simpa using this.2)
    cases s with
    | none => exact hpass rfl
    | some t =>
      by_cases ht : t = "" ∨ t = "All"
      · refine hpass ?_
        rcases ht with ht | ht <;> simp [catFilter, ht]
      · intro heq
        have hmem : r0 ∈ df.rows.filter (fun r => r.status = "") := by
          rw [List.mem_filter]
          exact ⟨hr0, by simpa using h0⟩
        rw [← heq] at hmem
        simp only [catFilter, if_neg ht, List.mem_filter] at hmem
        have : r0.status = t := by simpa using hmem.2
        rw [h0] at this
        exact ht (Or.inl this.symm)

/-- CLAIM C9 (witness): on the two-row sample holding an empty and a
non-empty `Status`, the empty-string filter equals the absent filter, and
the value `"Paid"` (like any other) does not select exactly the
empty-status rows. -/
theorem empty_string_filter_like_absent_witness :
    filterRows sampleStatus.rows { noFilters with status := some "" }
        = filterRows sampleStatus.rows { noFilters with status := none } ∧
      filterRows sampleStatus.rows (statusOnly (some "Paid"))
        ≠ sampleStatus.rows.filter (fun r => r.status = "") :=
  ⟨(empty_string_filter_like_absent sampleStatus noFilters).1.1,
   (empty_string_filter_like_absent sampleStatus noFilters).2
     ⟨loadRow rawEmptyStatus, by decide, by decide⟩
     ⟨loadRow raw1, by decide, by decide⟩ (some "Paid")⟩

/-- Reachable frames keep the keys of the added-column store of every row inside
the schema (true of the loaded frame, whose stores are empty, and preserved
by `add_column`). -/
def WFExtra (df : DataFrame) : Prop :=
  ∀ r ∈ df.rows, ∀ p ∈ r.extra, p.1 ∈ df.cols

instance decWFExtra (df : DataFrame) : Decidable (WFExtra df) :=
  inferInstanceAs (Decidable (∀ r ∈ df.rows, ∀ p ∈ r.extra, p.1 ∈ df.cols))

/-- CLAIM C5: `add_column` with a name already in the schema fails with the
duplicate-column error and leaves the stored state unchanged; with a fresh
name it succeeds, appends exactly one column (schema grows by exactly 1),
keeps every row, and sets the new column to the default value in every
existing row. -/
theorem add_column_duplicate_and_fresh (df : DataFrame) (name v : String)
    (hwf : WFExtra df) :
    (name ∈ df.cols →
      serverAddColumn ⟨df⟩ name v = (⟨df⟩, Except.error (AddColumnError.duplicate name))) ∧
    (name ∉ df.cols →
      ∃ d : DataFrame, add_column df name v = Except.ok d ∧
        d.cols = df.cols ++ [name] ∧
        d.cols.length = df.cols.length + 1 ∧
        d.rows.length = df.rows.length ∧
        ∀ r ∈ d.rows, lookupExtra r name = some v) := by
  constructor
  · intro h
    simp [serverAddColumn, add_column, if_pos h]
  · intro h
    refine ⟨{ cols := df.cols ++ [name],
              rows := df.rows.map (fun r => { r with extra := r.extra ++ [(name, v)] }) },
            by simp [add_column, if_neg h], rfl, by simp, by simp, ?_⟩
    intro r hr
    simp only [List.mem_map] at hr
    obtain ⟨r0, hr0, rfl⟩ := hr
    have hnone : r0.extra.find? (fun p => p.1 == name) = none := by
      rw [List.find?_eq_none]
      intro p hp
      simp only [beq_iff_eq]
      intro hpe
      exact h (hpe ▸ hwf r0 hr0 p hp)
    simp [lookupExtra, List.find?_append, hnone]

/-- CLAIM C5 (witness): on the one-row sample, adding the existing column
`"Total"` fails and leaves the state unchanged, while adding the fresh
column `"Notes"` appends it with its default in the row. -/
theorem add_column_duplicate_and_fresh_witness :
    serverAddColumn ⟨sample1⟩ "Total" "x"
        = (⟨sample1⟩, Except.error (AddColumnError.duplicate "Total")) ∧
      ∃ d : DataFrame, add_column sample1 "Notes" "y" = Except.ok d ∧
        d.cols = sample1.cols ++ ["Notes"] ∧
        d.cols.length = sample1.cols.length + 1 ∧
        d.rows.length = sample1.rows.length ∧
        ∀ r ∈ d.rows, lookupExtra r "Notes" = some "y" :=
  ⟨(add_column_duplicate_and_fresh sample1 "Total" "x" (by decide)).1 (by decide),
   (add_column_duplicate_and_fresh sample1 "Notes" "y" (by decide)).2 (by decide)⟩

/-- CLAIM C10: every read endpoint (paging, stats, filtered paging,
filtered stats, columns, filter options) returns the stored state
unchanged — filtering and aggregation work on a copy — while `add_column`
with a fresh name is the one operation that changes the stored state (and
with a duplicate name it errors out before mutating). -/
theorem read_endpoints_preserve_state (s : ServerState) (skip limit : Int)
    (c : FilterCriteria) (name v : String) :
    (serverGetData s skip limit).1 = s ∧
    (serverGetStats s).1 = s ∧
    (serverFilterData s c skip limit).1 = s ∧
    (serverGetFilteredStats s c).1 = s ∧
    (serverGetColumns s).1 = s ∧
    (serverGetFilterOptions s).1 = s ∧
    (name ∈ s.data.cols → (serverAddColumn s name v).1 = s) ∧
    (name ∉ s.data.cols → (serverAddColumn s name v).1 ≠ s) := by
  refine ⟨rfl, rfl, rfl, rfl, rfl, rfl, ?_, ?_⟩
  · intro h
    simp [serverAddColumn, add_column, if_pos h]
  · intro h heq
    have h2 := congrArg (fun st : ServerState => st.data.cols.length) heq
    simp [serverAddColumn, add_column, if_neg h] at h2

/-- CLAIM C10 (witness): on the one-row sample, a read returns the state
unchanged and a fresh-name `add_column` changes it. -/
theorem read_endpoints_preserve_state_witness :
    (serverGetFilteredStats ⟨sample1⟩ noFilters).1 = (⟨sample1⟩ : ServerState) ∧
      (serverAddColumn ⟨sample1⟩ "Notes" "").1 ≠ (⟨sample1⟩ : ServerState) :=
  ⟨(read_endpoints_preserve_state ⟨sample1⟩ 0 1 noFilters "Notes" "").2.2.2.1,
   (read_endpoints_preserve_state ⟨sample1⟩ 0 1 noFilters "Notes" "").2.2.2.2.2.2.2 (by decide)⟩

/-- CLAIM C1 (counterexample): `get_stats` applies Python `int()` to the
quantity sum, so on a loaded dataset whose coerced `Quantity` values sum to
`5/2` the reported `total_quantity` is `2`, not the sum itself. -/
theorem getStats_total_quantity_truncates :
    (get_stats sampleFrac).total_quantity = 2 ∧
      ((load [rawFrac]).rows.map (fun r => r.quantity)).sum = Rat.divInt 5 2 ∧
      ¬ ((2 : ℚ) = Rat.divInt 5 2) := by
  refine ⟨by with_unfolding_all decide, by with_unfolding_all decide, ?_⟩
  with_unfolding_all decide

/-- CLAIM C1 (amended): for every loaded dataset, `total_records` is the
row count, `total_sales` is the sum of the coerced `Total` values (parse
failures contributing `0`), `avg_order_value` is `total_sales / total_records`
when the count is positive and `0` otherwise, and `total_quantity` is the
sum of the coerced `Quantity` values truncated toward zero to an integer by
`int()` (equal to that sum whenever the sum is integral). -/
theorem getStats_kpis_of_load (raws : List RawRow) :
    (get_stats (load raws)).total_records = (load raws).rows.length ∧
    (get_stats (load raws)).total_sales = (raws.map (fun r => coerceNum r.total)).sum ∧
    (get_stats (load raws)).total_quantity
        = truncInt ((raws.map (fun r => coerceNum r.quantity)).sum) ∧
    (get_stats (load raws)).avg_order_value
        = (if 0 < (load raws).rows.length
           then (get_stats (load raws)).total_sales / (((load raws).rows.length : Nat) : ℚ)
           else 0) := by
  have hT : "Total" ∈ (load raws).cols := by show "Total" ∈ baseCols; decide
  have hQ : "Quantity" ∈ (load raws).cols := by show "Quantity" ∈ baseCols; decide
  refine ⟨rfl, ?_, ?_, ?_⟩
  · show (if "Total" ∈ (load raws).cols then sumTotals (load raws).rows else 0) = _
    rw [if_pos hT]
    simp [sumTotals, load, loadRow, List.map_map, Function.comp_def]
  · show truncInt (if "Quantity" ∈ (load raws).cols then sumQuantities (load raws).rows else 0)
        = _
    rw [if_pos hQ]
    simp [sumQuantities, load, loadRow, List.map_map, Function.comp_def]
  · rfl

/-- CLAIM C3 (counterexample): load-time and filter-time date parsing do
not use the same format.  The ISO string `"2023-01-05"` fails under the
load-time `%d/%m/%Y` format but parses at filter time, and the ambiguous
string `"02/03/2023"` parses to 2 March 2023 at load time but to
3 February 2023 at filter time. -/
theorem load_filter_date_parsers_differ :
    parseDateDMY "2023-01-05" = none ∧
      parseDateFlex "2023-01-05" = some (encodeDate 2023 1 5) ∧
      parseDateDMY "02/03/2023" = some (encodeDate 2023 3 2) ∧
      parseDateFlex "02/03/2023" = some (encodeDate 2023 2 3) := by
  decide

/-- CLAIM C3 (amended): load-time coercion uses the fixed `%d/%m/%Y`
format, while filter-time parsing uses the pandas default flexible inference,
so a date string need not parse identically at both stages; the stages do
agree on day-first-unambiguous strings such as `"25/12/2023"`, and the very
string that produced the stored date of a row (`"05/01/2023"` → 5 January) can,
as a `from_date` bound, parse month-first (1 May) and exclude that row. -/
theorem date_parsing_stage_behavior :
    parseDateDMY "25/12/2023" = parseDateFlex "25/12/2023" ∧
      (loadRow raw1).date = some (encodeDate 2023 1 5) ∧
      parseDateFlex "05/01/2023" = some (encodeDate 2023 5 1) ∧
      (get_filtered_stats sample1 { noFilters with from_date := some "05/01/2023" }).total_count
        = 0 := by
  decide

theorem sum_ones_eq_length {α : Type} (l : List α) :
    (l.map (fun _ => (1 : Nat))).sum = l.length := by
  induction l with
  | nil => rfl
  | cons x xs ih => simp [ih, Nat.add_comm]

theorem monthKeys_nodup (rows : List Row) : (monthKeys rows).Nodup := by
  have h := List.perm_insertionSort (fun a b : String => strLe a b = true)
    (firstSeen (rows.filterMap monthKey))
  exact h.nodup_iff.mpr (nodup_firstSeen _)

theorem monthKeys_cover (rows : List Row) :
    ∀ r ∈ rows, ∀ k, monthKey r = some k → k ∈ monthKeys rows := by
  intro r hr k hk
  have h1 : k ∈ rows.filterMap monthKey := List.mem_filterMap.mpr ⟨r, hr, hk⟩
  have h2 : k ∈ firstSeen (rows.filterMap monthKey) := mem_firstSeen.mpr h1
  have h3 := List.perm_insertionSort (fun a b : String => strLe a b = true)
    (firstSeen (rows.filterMap monthKey))
  exact h3.mem_iff.mpr h2

theorem monthKeys_sorted_ne (rows : List Row) :
    List.Pairwise (fun a b => strLe a b = true ∧ a ≠ b) (monthKeys rows) := by
  haveI : IsTotal String (fun a b : String => strLe a b = true) := ⟨strLe_total⟩
  haveI : IsTrans String (fun a b : String => strLe a b = true) :=
    ⟨fun a b c => strLe_trans a b c⟩
  have hs : List.Pairwise (fun a b : String => strLe a b = true) (monthKeys rows) :=
    List.sorted_insertionSort (fun a b : String => strLe a b = true)
      (firstSeen (rows.filterMap monthKey))
  exact hs.and (List.Pairwise.imp (fun h => h) (monthKeys_nodup rows))

/-- CLAIM C4: in the `/stats` bundle of every loaded dataset, rows with a
null `Date` are excluded from all three monthly aggregates — the monthly
order counts sum to the number of rows with a parsed date, the monthly
sales sum to the `Total` of exactly those rows, and the per-month counts in
the average series sum to the same number — while `total_records` still
counts every row; and each of the three monthly sequences is pairwise
strictly ascending in its `YYYY-MM` label. -/
theorem monthly_series_exclude_null_dates_and_sorted (raws : List RawRow) :
    (get_stats (load raws)).total_records = (load raws).rows.length ∧
    ((get_stats (load raws)).monthly_orders.map (fun p => p.2)).sum
        = ((load raws).rows.filter (fun r => r.date.isSome)).length ∧
    ((get_stats (load raws)).monthly_sales.map (fun p => p.2)).sum
        = sumTotals ((load raws).rows.filter (fun r => r.date.isSome)) ∧
    ((get_stats (load raws)).monthly_avg_values.map (fun p => p.2.2)).sum
        = ((load raws).rows.filter (fun r => r.date.isSome)).length ∧
    List.Pairwise (fun a b => strLe a.1 b.1 = true ∧ a.1 ≠ b.1)
      (get_stats (load raws)).monthly_sales ∧
    List.Pairwise (fun a b => strLe a.1 b.1 = true ∧ a.1 ≠ b.1)
      (get_stats (load raws)).monthly_orders ∧
    List.Pairwise (fun a b => strLe a.1 b.1 = true ∧ a.1 ≠ b.1)
      (get_stats (load raws)).monthly_avg_values := by
  have hD : "Date" ∈ (load raws).cols := by show "Date" ∈ baseCols; decide
  have hms : (get_stats (load raws)).monthly_sales = monthlySales (load raws).rows := by
    show (if "Date" ∈ (load raws).cols then monthlySales (load raws).rows else []) = _
    rw [if_pos hD]
  have hmo : (get_stats (load raws)).monthly_orders = monthlyOrders (load raws).rows := by
    show (if "Date" ∈ (load raws).cols then monthlyOrders (load raws).rows else []) = _
    rw [if_pos hD]
  have hma : (get_stats (load raws)).monthly_avg_values = monthlyAvg (load raws).rows := by
    show (if "Date" ∈ (load raws).cols then monthlyAvg (load raws).rows else []) = _
    rw [if_pos hD]
  have hfilter : ∀ rows : List Row,
      rows.filter (fun r => (monthKey r).isSome) = rows.filter (fun r => r.date.isSome) := by
    intro rows
    refine List.filter_congr (fun r _ => ?_)
    simp [monthKey, Option.isSome_map']
  have hcount : ∀ rows : List Row,
      ((monthlyOrders rows).map (fun p => p.2)).sum
        = (rows.filter (fun r => r.date.isSome)).length := by
    intro rows
    have hgroups := sum_groups monthKey (fun _ => (1 : Nat)) (monthKeys rows)
      (monthKeys_nodup rows) rows (monthKeys_cover rows)
    calc ((monthlyOrders rows).map (fun p => p.2)).sum
        = ((monthKeys rows).map (fun k => (monthGroup rows k).length)).sum := by
          simp [monthlyOrders, List.map_map, Function.comp_def]
      _ = ((monthKeys rows).map
            (fun k => ((rows.filter (fun r => monthKey r = some k)).map
              (fun _ => (1 : Nat))).sum)).sum := by
          refine congrArg List.sum (List.map_congr_left (fun k _ => ?_))
          rw [sum_ones_eq_length]
          rfl
      _ = ((rows.filter (fun r => (monthKey r).isSome)).map (fun _ => (1 : Nat))).sum :=
          hgroups
      _ = (rows.filter (fun r => r.date.isSome)).length := by
          rw [sum_ones_eq_length, hfilter]
  refine ⟨rfl, ?_, ?_, ?_, ?_, ?_, ?_⟩
  · rw [hmo]; exact hcount (load raws).rows
  · rw [hms]
    have hgroups := sum_groups monthKey (fun r => r.total) (monthKeys (load raws).rows)
      (monthKeys_nodup (load raws).rows) (load raws).rows (monthKeys_cover (load raws).rows)
    calc ((monthlySales (load raws).rows).map (fun p => p.2)).sum
        = ((monthKeys (load raws).rows).map
            (fun k => sumTotals (monthGroup (load raws).rows k))).sum := by
          simp [monthlySales, List.map_map, Function.comp_def]
      _ = (((load raws).rows.filter (fun r => (monthKey r).isSome)).map
            (fun r => r.total)).sum := hgroups
      _ = sumTotals ((load raws).rows.filter (fun r => r.date.isSome)) := by
          rw [hfilter]; rfl
  · rw [hma]
    have : ((monthlyAvg (load raws).rows).map (fun p => p.2.2)).sum
        = ((monthlyOrders (load raws).rows).map (fun p => p.2)).sum := by
      simp [monthlyAvg, monthlyOrders, List.map_map, Function.comp_def]
    rw [this]
    exact hcount (load raws).rows
  · rw [hms]
    exact List.pairwise_map.mpr ((monthKeys_sorted_ne _).imp (fun h => h))
  · rw [hmo]
    exact List.pairwise_map.mpr ((monthKeys_sorted_ne _).imp (fun h => h))
  · rw [hma]
    exact List.pairwise_map.mpr ((monthKeys_sorted_ne _).imp (fun h => h))

theorem value_counts_entries (vals : List String) :
    ∀ p ∈ value_counts vals, p.1 ∈ vals ∧ p.2 = vals.count p.1 := by
  intro p hp
  have hperm := List.perm_insertionSort (fun a b => vcLe vals a b = true)
    ((firstSeen vals).map (fun k => (k, vals.count k)))
  have hp' : p ∈ (firstSeen vals).map (fun k => (k, vals.count k)) := hperm.mem_iff.mp hp
  obtain ⟨k, hk, rfl⟩ := List.mem_map.mp hp'
  exact ⟨mem_firstSeen.mp hk, rfl⟩

theorem value_counts_sorted (vals : List String) :
    List.Pairwise
      (fun a b => b.2 ≤ a.2 ∧ (a.2 = b.2 → vals.indexOf a.1 < vals.indexOf b.1))
      (value_counts vals) := by
  haveI : IsTotal (String × Nat) (fun a b => vcLe vals a b = true) := ⟨vcLe_total vals⟩
  haveI : IsTrans (String × Nat) (fun a b => vcLe vals a b = true) :=
    ⟨fun a b c => vcLe_trans vals a b c⟩
  have hle : List.Pairwise (fun a b => vcLe vals a b = true) (value_counts vals) :=
    List.sorted_insertionSort (fun a b => vcLe vals a b = true)
      ((firstSeen vals).map (fun k => (k, vals.count k)))
  have hperm := List.perm_insertionSort (fun a b => vcLe vals a b = true)
    ((firstSeen vals).map (fun k => (k, vals.count k)))
  have hne0 : List.Pairwise (fun a b : String × Nat => a.1 ≠ b.1)
      ((firstSeen vals).map (fun k => (k, vals.count k))) :=
    List.pairwise_map.mpr ((nodup_firstSeen vals).imp (fun h => h))
  have hne : List.Pairwise (fun a b : String × Nat => a.1 ≠ b.1) (value_counts vals) :=
    (hperm.pairwise_iff (fun h => Ne.symm h)).mpr hne0
  refine (hle.and hne).imp_of_mem ?_
  intro a b ha hb hab
  obtain ⟨hab, hneq⟩ := hab
  have hmema := value_counts_entries vals a ha
  have hmemb := value_counts_entries vals b hb
  simp only [vcLe, Bool.or_eq_true, Bool.and_eq_true, decide_eq_true_eq] at hab
  constructor
  · rcases hab with h | ⟨h, _⟩
    · exact le_of_lt h
    · exact le_of_eq h.symm
  · intro heq
    rcases hab with h | ⟨_, hidx⟩
    · exact absurd h (by rw [heq]; exact lt_irrefl _)
    · refine lt_of_le_of_ne hidx ?_
      intro hidxeq
      exact hneq ((List.indexOf_inj hmema.1 hmemb.1).mp hidxeq)

/-- CLAIM C8: for every dataset, the `top_skus` field of the `/stats`
bundle has at most 10 entries (the hard-coded `head(10)` default), each
entry pairs a SKU occurring in the data with its occurrence count, and the
entries are sorted descending by count with ties between equal counts
broken by the first-seen position of the SKU in the column. -/
theorem top_skus_sorted_bounded (df : DataFrame) :
    (get_stats df).top_skus.length ≤ 10 ∧
    List.Pairwise
      (fun a b => b.2 ≤ a.2 ∧ (a.2 = b.2 →
        (df.rows.map (fun r => r.sku)).indexOf a.1
          < (df.rows.map (fun r => r.sku)).indexOf b.1))
      (get_stats df).top_skus ∧
    ∀ p ∈ (get_stats df).top_skus,
      p.1 ∈ df.rows.map (fun r => r.sku)
        ∧ p.2 = (df.rows.map (fun r => r.sku)).count p.1 := by
  by_cases h : "SKU" ∈ df.cols
  · have htop : (get_stats df).top_skus = topSkus df.rows := by
      show (if "SKU" ∈ df.cols then topSkus df.rows else []) = _
      rw [if_pos h]
    rw [htop]
    refine ⟨List.length_take_le _ _, ?_, ?_⟩
    · exact (value_counts_sorted _).sublist (List.take_sublist _ _)
    · intro p hp
      exact value_counts_entries _ p (List.take_subset _ _ hp)
  · have htop : (get_stats df).top_skus = [] := by
      show (if "SKU" ∈ df.cols then topSkus df.rows else []) = _
      rw [if_neg h]
    rw [htop]
    exact ⟨by simp, List.Pairwise.nil, by simp⟩

/-- CLAIM C8 (witness): on the three-row sample, the `/stats` bundle lists
`SKU1` (count 2) before `SKU2` (count 1), within the bound of 10. -/
theorem top_skus_sorted_bounded_witness :
    (get_stats sample3).top_skus.length ≤ 10 ∧
      (get_stats sample3).top_skus = [("SKU1", 2), ("SKU2", 1)] :=
  ⟨(top_skus_sorted_bounded sample3).1, by decide⟩
